import Mathlib

/-!
Verification development for the walkscape-gearset-optimizer repository.

Python source is shallowly embedded: floats become exact rationals (ℚ),
Python dicts with a numeric default become finitely evaluated maps
(`String → ℚ` updated pointwise, or association lists where iteration
order is part of the algorithm), `math.ceil` becomes `Int.ceil`, and
fallible lookups become `Option`.  Functions named after their Python
counterparts are translated line by line from the source files cited in
the theorems.  A few symbols the source imports from its generated
`walkscape_constants` module (absent from the repository snapshot) are
modelled from the specification and documented as such at their
definition sites.
-/

namespace Walkscape

/-! ## util/quality_outcome.py -/

/-- The six crafting quality tiers, commonest first. -/
inductive Quality : Type
  | Normal | Good | Great | Excellent | Perfect | Eternal
deriving DecidableEq, Repr

/-- Starting weights table from `calculate_quality_weights` (quality_outcome.py lines 19-26). -/
def startingWeight : Quality → ℚ
  | .Normal => 1000
  | .Good => 200
  | .Great => 50
  | .Excellent => 10
  | .Perfect => 5/2
  | .Eternal => 1/20

/-- Minimum weights table (quality_outcome.py lines 29-36). -/
def minimumWeight : Quality → ℚ
  | .Normal => 4
  | .Good => 4
  | .Great => 4
  | .Excellent => 4
  | .Perfect => 2
  | .Eternal => 1/20

/-- Fixed band starts (quality_outcome.py lines 39-46). -/
def bandStart : Quality → ℚ
  | .Normal => 0
  | .Good => 100
  | .Great => 200
  | .Excellent => 300
  | .Perfect => 400
  | .Eternal => 500

/-- One-based tier position used for the band-end formula (quality_outcome.py line 50). -/
def tierIndex : Quality → ℕ
  | .Normal => 1
  | .Good => 2
  | .Great => 3
  | .Excellent => 4
  | .Perfect => 5
  | .Eternal => 6

/-- Band end `(100 + recipe_level) * i` (quality_outcome.py line 51). -/
def bandEnd (recipeLevel : ℤ) (q : Quality) : ℚ :=
  (100 + (recipeLevel : ℚ)) * (tierIndex q : ℚ)

/-- Per-tier weight before the monotonicity clamp (quality_outcome.py lines 65-76).
Python raises ZeroDivisionError when `band_start = band_end` (recipe levels
-100, -50, -25, -20); the embedding totalises that division as 0, which keeps
the clamp behaviour on every input on which the Python code returns. -/
def uncappedWeight (recipeLevel : ℤ) (qualityOutcome : ℚ) (q : Quality) : ℚ :=
  if qualityOutcome ≤ bandStart q then startingWeight q
  else
    let slope := (startingWeight q - minimumWeight q) / (bandStart q - bandEnd recipeLevel q)
    max (minimumWeight q) (startingWeight q + slope * (qualityOutcome - bandStart q))

/-- Clamped weights, processed from rarest to commonest exactly as the loop in
`calculate_quality_weights` does (quality_outcome.py lines 57-85): each tier is
raised to at least the weight already computed for the next-rarer tier. -/
def weightsEternal (L : ℤ) (qo : ℚ) : ℚ := uncappedWeight L qo .Eternal

def weightsPerfect (L : ℤ) (qo : ℚ) : ℚ :=
  max (uncappedWeight L qo .Perfect) (weightsEternal L qo)

def weightsExcellent (L : ℤ) (qo : ℚ) : ℚ :=
  max (uncappedWeight L qo .Excellent) (weightsPerfect L qo)

def weightsGreat (L : ℤ) (qo : ℚ) : ℚ :=
  max (uncappedWeight L qo .Great) (weightsExcellent L qo)

def weightsGood (L : ℤ) (qo : ℚ) : ℚ :=
  max (uncappedWeight L qo .Good) (weightsGreat L qo)

def weightsNormal (L : ℤ) (qo : ℚ) : ℚ :=
  max (uncappedWeight L qo .Normal) (weightsGood L qo)

/-- The `weights` component of the dict returned by `calculate_quality_weights`. -/
def calculate_quality_weights (L : ℤ) (qo : ℚ) : Quality → ℚ
  | .Normal => weightsNormal L qo
  | .Good => weightsGood L qo
  | .Great => weightsGreat L qo
  | .Excellent => weightsExcellent L qo
  | .Perfect => weightsPerfect L qo
  | .Eternal => weightsEternal L qo

end Walkscape

namespace Walkscape

/-- C1: for every integer recipe level and every quality-outcome value, the
weights returned by `calculate_quality_weights` are ordered from commonest to
rarest tier: Normal ≥ Good ≥ Great ≥ Excellent ≥ Perfect ≥ Eternal, so a rarer
tier's weight never exceeds the weight of the tier below it. -/
theorem C1_quality_weights_ordered (L : ℤ) (qo : ℚ) :
    calculate_quality_weights L qo .Normal ≥ calculate_quality_weights L qo .Good ∧
    calculate_quality_weights L qo .Good ≥ calculate_quality_weights L qo .Great ∧
    calculate_quality_weights L qo .Great ≥ calculate_quality_weights L qo .Excellent ∧
    calculate_quality_weights L qo .Excellent ≥ calculate_quality_weights L qo .Perfect ∧
    calculate_quality_weights L qo .Perfect ≥ calculate_quality_weights L qo .Eternal := by
  refine ⟨?_, ?_, ?_, ?_, ?_⟩ <;>
    simp [calculate_quality_weights, weightsNormal, weightsGood, weightsGreat,
      weightsExcellent, weightsPerfect, le_max_right]

end Walkscape

namespace Walkscape

/-! ## util/activity_metrics.py -/

/-- The dict returned by `calculate_activity_metrics`. -/
structure ActivityMetrics where
  expected_steps_per_action : ℤ
  steps_per_reward_roll : ℚ
  primary_xp_per_step : ℚ
  reward_rolls_per_step : ℚ
deriving DecidableEq, Repr

/-- Intermediate `steps_per_single_action` of `calculate_activity_metrics`
(activity_metrics.py lines 88-100): capped work efficiency, ceiling, the
minimum-steps floor at max efficiency, the percentage and flat modifiers, and
the hard 10-step floor. -/
def stepsPerSingleAction (base_steps : ℤ) (max_efficiency work_efficiency : ℚ)
    (steps_add : ℤ) (steps_percent : ℚ) : ℚ :=
  let capped_we := min work_efficiency max_efficiency
  let total_efficiency := 1 + capped_we
  let steps_with_efficiency : ℤ := ⌈(base_steps : ℚ) / total_efficiency⌉
  let min_steps : ℤ := ⌈(base_steps : ℚ) / (1 + max_efficiency)⌉
  let steps_after_min : ℤ := max steps_with_efficiency min_steps
  let steps_with_pct : ℚ := (steps_after_min : ℚ) * (1 + steps_percent)
  let steps_with_flat : ℚ := steps_with_pct + (steps_add : ℤ)
  max steps_with_flat 10

/-- Embedding of `calculate_activity_metrics` (activity_metrics.py lines
88-119), legacy-parameter calling convention with every stat passed explicitly. -/
def calculate_activity_metrics (base_steps base_xp : ℤ)
    (max_efficiency work_efficiency double_action double_rewards : ℚ)
    (steps_add : ℤ) (steps_percent bonus_xp_percent bonus_xp_add : ℚ) :
    ActivityMetrics :=
  let steps_per_single_action :=
    stepsPerSingleAction base_steps max_efficiency work_efficiency steps_add steps_percent
  let expected_paid_actions : ℚ := 1 / (1 + double_action)
  let expected_steps_per_action : ℤ := ⌈expected_paid_actions * steps_per_single_action⌉
  let rewards_per_completion := (1 + double_rewards) * (1 + double_action)
  let steps_per_reward_roll := steps_per_single_action / rewards_per_completion
  let total_xp := (base_xp : ℚ) * (1 + bonus_xp_percent) + bonus_xp_add
  { expected_steps_per_action := expected_steps_per_action
    steps_per_reward_roll := steps_per_reward_roll
    primary_xp_per_step :=
      if 0 < expected_steps_per_action then total_xp / (expected_steps_per_action : ℚ) else 0
    reward_rolls_per_step :=
      if 0 < steps_per_reward_roll then 1 / steps_per_reward_roll else 0 }

/-- With zero work efficiency, zero percentage modifier and zero flat modifier,
the single-action step count of `calculate_activity_metrics` is the base step
count, provided the efficiency cap is nonnegative and the base is at least the
10-step floor. -/
lemma stepsPerSingleAction_no_bonus (b : ℤ) (me : ℚ) (hcap : 0 ≤ me) (hb : 10 ≤ b) :
    stepsPerSingleAction b me 0 0 0 = (b : ℚ) := by
  have hb0 : (0 : ℚ) ≤ (b : ℚ) := by exact_mod_cast le_trans (by norm_num) hb
  have hone : (1 : ℚ) ≤ 1 + me := by linarith
  have hdivle : (b : ℚ) / (1 + me) ≤ (b : ℚ) := div_le_self hb0 hone
  have hceil2 : (⌈(b : ℚ) / (1 + me)⌉ : ℤ) ≤ b := Int.ceil_le.mpr (by exact_mod_cast hdivle)
  unfold stepsPerSingleAction
  rw [min_eq_left hcap]
  simp only [add_zero, div_one, Int.ceil_intCast, Int.cast_zero, mul_one]
  rw [max_eq_left hceil2]
  exact max_eq_left (by exact_mod_cast hb)

end Walkscape

namespace Walkscape

/-- C7: in `calculate_activity_metrics` the expected number of paid actions is
reduced by double action and the rounding happens after the division, so
`expected_steps_per_action = ceil(steps_per_single_action / (1 + double_action))`;
and with work efficiency, double action, steps_add and steps_percent all zero,
every base step count ≥ 10 passes through unchanged — in particular base 1000
yields exactly 1000 (the efficiency cap is nonnegative). -/
theorem C7_double_action_rounds_after_division
    (base_steps base_xp : ℤ) (max_efficiency work_efficiency double_action double_rewards : ℚ)
    (steps_add : ℤ) (steps_percent bonus_xp_percent bonus_xp_add : ℚ)
    (hcap : 0 ≤ max_efficiency) (hbase : 10 ≤ base_steps) :
    (calculate_activity_metrics base_steps base_xp max_efficiency work_efficiency
        double_action double_rewards steps_add steps_percent bonus_xp_percent
        bonus_xp_add).expected_steps_per_action =
      ⌈stepsPerSingleAction base_steps max_efficiency work_efficiency steps_add
          steps_percent / (1 + double_action)⌉ ∧
    (calculate_activity_metrics base_steps base_xp max_efficiency 0 0 double_rewards
        0 0 bonus_xp_percent bonus_xp_add).expected_steps_per_action = base_steps ∧
    (calculate_activity_metrics 1000 base_xp max_efficiency 0 0 double_rewards
        0 0 bonus_xp_percent bonus_xp_add).expected_steps_per_action = 1000 := by
  refine ⟨?_, ?_, ?_⟩
  · unfold calculate_activity_metrics
    rw [one_div, div_eq_mul_inv]
    ring_nf
  · unfold calculate_activity_metrics
    rw [stepsPerSingleAction_no_bonus base_steps max_efficiency hcap hbase]
    norm_num
  · unfold calculate_activity_metrics
    rw [stepsPerSingleAction_no_bonus 1000 max_efficiency hcap (by norm_num)]
    norm_num

/-- Witness for C7 at base_steps 1000, base_xp 50, max efficiency 3/5: all three
conjuncts evaluate on the concrete input. -/
theorem C7_witness :
    (0 : ℚ) ≤ 3/5 ∧ (10 : ℤ) ≤ 1000 ∧
    ((calculate_activity_metrics 1000 50 (3/5) (1/4) (1/10) 0 0 0 0 0).expected_steps_per_action =
      ⌈stepsPerSingleAction 1000 (3/5) (1/4) 0 0 / (1 + (1/10 : ℚ))⌉ ∧
    (calculate_activity_metrics 1000 50 (3/5) 0 0 0 0 0 0 0).expected_steps_per_action = 1000 ∧
    (calculate_activity_metrics 1000 50 (3/5) 0 0 0 0 0 0 0).expected_steps_per_action = 1000) :=
  ⟨by norm_num, by norm_num,
    C7_double_action_rounds_after_division 1000 50 (3/5) (1/4) (1/10) 0 0 0 0 0
      (by norm_num) (by norm_num)⟩

end Walkscape

namespace Walkscape

/-! ## The two calc_steps implementations (gear_item_comparison.py lines 36-49
and travel_locations_optimizer.py lines 202-221). -/

/-- Embedding of `calc_steps` from gear_item_comparison.py: applies
`steps_percent` as `(1 - pct)`.  `LEVEL_WE` (a module-level constant derived
from the configured agility level) is passed explicitly. -/
def calc_steps_gear_item (level_we : ℚ) (base : ℤ) (we da pct : ℚ) (flat : ℤ) : ℤ :=
  let eff := 1 + level_we + we
  let adj := (base : ℚ) / eff * (1 - pct)
  let rounded_total : ℤ := ⌈adj⌉
  let steps_per_node : ℚ := (rounded_total : ℚ) / 10 + (flat : ℚ)
  let steps_per_node2 : ℤ := max 10 ⌈steps_per_node⌉
  let expected_paid_nodes : ℚ := 10 / (1 + da)
  ⌈expected_paid_nodes * (steps_per_node2 : ℚ)⌉

/-- Embedding of the arithmetic core of `calc_steps` from
travel_locations_optimizer.py: identical to the gear_item_comparison version
except that `steps_percent` is applied as `(1 + pct)` (the source comments that
steps_percent is stored negative). -/
def calc_steps_travel (level_we : ℚ) (base : ℤ) (we da pct : ℚ) (flat : ℤ) : ℤ :=
  let eff := 1 + level_we + we
  let adj := (base : ℚ) / eff * (1 + pct)
  let rounded_total : ℤ := ⌈adj⌉
  let steps_per_node : ℚ := (rounded_total : ℚ) / 10 + (flat : ℚ)
  let steps_per_node2 : ℤ := max 10 ⌈steps_per_node⌉
  let expected_paid_nodes : ℚ := 10 / (1 + da)
  ⌈expected_paid_nodes * (steps_per_node2 : ℚ)⌉

end Walkscape

namespace Walkscape

/-- C9: the two `calc_steps` implementations are not extensionally equal — at
base 1000 with steps_percent 1/2 and every other bonus zero the
gear_item_comparison version returns 500 while the travel version returns 1500
— yet they coincide whenever steps_percent is 0. -/
theorem C9_calc_steps_sign_conventions_differ :
    (calc_steps_gear_item 0 1000 0 0 (1/2) 0 = 500 ∧
     calc_steps_travel 0 1000 0 0 (1/2) 0 = 1500) ∧
    ∀ (level_we : ℚ) (base : ℤ) (we da : ℚ) (flat : ℤ),
      calc_steps_gear_item level_we base we da 0 flat =
        calc_steps_travel level_we base we da 0 flat := by
  constructor
  · constructor
    · unfold calc_steps_gear_item
      norm_num
    · unfold calc_steps_travel
      norm_num
  · intro level_we base we da flat
    unfold calc_steps_gear_item calc_steps_travel
    norm_num

end Walkscape

namespace Walkscape

/-! ## util/optimization_utils.py: validate_uuid_uniqueness -/

/-- Equippable item as the validator sees it: identity (`uuid`), display
`name`, the slot category string (`"head"`, `"ring"`, `"tools"`, ...) and the
keyword list. -/
structure Item where
  uuid : String
  name : String
  slot : String
  keywords : List String
deriving DecidableEq, Repr

/-- Non-None entries of a slot-values list (`for item in items: if item is None: continue`). -/
def equippedItems (items : List (Option Item)) : List Item := items.filterMap id

/-- Number of uses of a UUID across the gearset (`uuid_counts` in
validate_uuid_uniqueness, optimization_utils.py lines 199-211). -/
def uuidCount (items : List (Option Item)) (u : String) : ℕ :=
  ((equippedItems items).filter (fun i => i.uuid == u)).length

/-- The representative item recorded for a UUID; the Python dict assignment
`uuid_to_item[uuid] = item` keeps the last item seen with that UUID. -/
def uuidRep (items : List (Option Item)) (u : String) : Option Item :=
  ((equippedItems items).filter (fun i => i.uuid == u)).getLast?

/-- Embedding of `validate_uuid_uniqueness` (optimization_utils.py lines
182-239).  The owned-quantity index `character._uuid_cache` is passed as the
function `ownedQty`.  Tools and non-ring gear allow at most one use per UUID;
ring UUIDs (when `allowRingDuplicates`) may be used up to the owned quantity. -/
def validate_uuid_uniqueness (items : List (Option Item)) (ownedQty : String → ℕ)
    (allowRingDuplicates : Bool) : Bool :=
  ((equippedItems items).map (fun i => i.uuid)).dedup.all fun u =>
    match uuidRep items u with
    | none => true
    | some item =>
      if item.slot = "tools" then decide (uuidCount items u ≤ 1)
      else if item.slot = "ring" ∧ allowRingDuplicates = true then
        decide (uuidCount items u ≤ ownedQty u)
      else decide (uuidCount items u ≤ 1)

/-- A UUID that is used at least once appears in the validator's key list. -/
lemma mem_dedup_of_uuidCount_pos (items : List (Option Item)) (u : String)
    (h : 0 < uuidCount items u) :
    u ∈ ((equippedItems items).map (fun i => i.uuid)).dedup := by
  rw [List.mem_dedup]
  unfold uuidCount at h
  rcases List.exists_mem_of_length_pos h with ⟨i, hi⟩
  rcases List.mem_filter.mp hi with ⟨hmem, hu⟩
  exact List.mem_map.mpr ⟨i, hmem, by simpa using hu⟩

/-- The representative item of a used UUID is an equipped item bearing it. -/
lemma uuidRep_mem (items : List (Option Item)) (u : String) (i : Item)
    (h : uuidRep items u = some i) : i ∈ equippedItems items ∧ i.uuid = u := by
  unfold uuidRep at h
  rcases List.mem_getLast?_eq_getLast (show i ∈ _ from h) with ⟨hne, heq⟩
  have hmem : i ∈ (equippedItems items).filter (fun i => i.uuid == u) := by
    rw [heq]; exact List.getLast_mem hne
  rcases List.mem_filter.mp hmem with ⟨hin, hu⟩
  exact ⟨hin, by simpa using hu⟩

/-- Concrete helmet using UUID `"uuid-a"`. -/
def itemHelmA : Item := ⟨"uuid-a", "Helm A", "head", []⟩

/-- Concrete chest piece sharing UUID `"uuid-a"` with `itemHelmA`. -/
def itemChestA : Item := ⟨"uuid-a", "Chest A", "chest", []⟩

/-- Concrete ring with UUID `"uuid-r"`. -/
def itemRingR : Item := ⟨"uuid-r", "Ring R", "ring", []⟩

/-- Concrete tool with UUID `"uuid-t"`. -/
def itemToolT : Item := ⟨"uuid-t", "Tool T", "tools", []⟩

/-- Concrete gear piece with UUID `"uuid-g"`. -/
def itemGearG : Item := ⟨"uuid-g", "Gear G", "hands", []⟩

end Walkscape

namespace Walkscape

/-- C6: uniqueness validation fails whenever a tool or non-ring gear UUID is
used more than once, and whenever a ring UUID is used more often than the
character owns it; concretely, the same non-ring UUID in two different gear
slots is rejected while the same ring UUID in both ring slots is accepted with
owned quantity 2. -/
theorem C6_uuid_uniqueness_rules (items : List (Option Item)) (ownedQty : String → ℕ)
    (u : String) (i : Item) :
    (uuidRep items u = some i → i.slot ≠ "ring" → 2 ≤ uuidCount items u →
      validate_uuid_uniqueness items ownedQty true = false) ∧
    (uuidRep items u = some i → i.slot = "ring" → ownedQty u < uuidCount items u →
      validate_uuid_uniqueness items ownedQty true = false) ∧
    validate_uuid_uniqueness [some itemHelmA, some itemChestA] (fun _ => 5) true = false ∧
    validate_uuid_uniqueness [some itemRingR, some itemRingR] (fun _ => 2) true = true := by
  refine ⟨?_, ?_, by decide, by decide⟩
  · intro hrep hslot hcount
    unfold validate_uuid_uniqueness
    rw [List.all_eq_false]
    refine ⟨u, mem_dedup_of_uuidCount_pos items u (by omega), ?_⟩
    rw [hrep]
    dsimp only
    by_cases htool : i.slot = "tools"
    · simp only [htool, if_pos rfl]
      simp [decide_eq_false (by omega : ¬ uuidCount items u ≤ 1)]
    · rw [if_neg htool, if_neg (by simp [hslot])]
      simp [decide_eq_false (by omega : ¬ uuidCount items u ≤ 1)]
  · intro hrep hslot hcount
    unfold validate_uuid_uniqueness
    rw [List.all_eq_false]
    refine ⟨u, mem_dedup_of_uuidCount_pos items u (by omega), ?_⟩
    rw [hrep]
    dsimp only
    have htool : ¬ i.slot = "tools" := by rw [hslot]; decide
    rw [if_neg htool, if_pos ⟨hslot, rfl⟩]
    simp [decide_eq_false (by omega : ¬ uuidCount items u ≤ ownedQty u)]

/-- Witness for C6: both failure rules fire on concrete gearsets — the
duplicated non-ring UUID `"uuid-a"` and a ring equipped twice but owned once. -/
theorem C6_witness :
    validate_uuid_uniqueness [some itemHelmA, some itemChestA] (fun _ => 5) true = false ∧
    validate_uuid_uniqueness [some itemRingR, some itemRingR] (fun _ => 1) true = false :=
  ⟨(C6_uuid_uniqueness_rules [some itemHelmA, some itemChestA] (fun _ => 5) "uuid-a"
      itemChestA).1 (by decide) (by decide) (by decide),
   ((C6_uuid_uniqueness_rules [some itemRingR, some itemRingR] (fun _ => 1) "uuid-r"
      itemRingR).2).1 (by decide) (by decide) (by decide)⟩

/-- C10: the validator consults owned quantities only for ring-slot items.  A
gearset whose equipped items are all non-ring and pairwise UUID-distinct
validates for every owned-quantity index; concretely a gear item and a tool the
character owns 0 copies of each pass when equipped once, while a ring owned 0
times fails even equipped once. -/
theorem C10_owned_quantity_only_gates_rings :
    (∀ (items : List (Option Item)) (ownedQty : String → ℕ),
      (∀ i ∈ equippedItems items, i.slot ≠ "ring") →
      (∀ u, uuidCount items u ≤ 1) →
      validate_uuid_uniqueness items ownedQty true = true) ∧
    validate_uuid_uniqueness [some itemGearG] (fun _ => 0) true = true ∧
    validate_uuid_uniqueness [some itemToolT] (fun _ => 0) true = true ∧
    validate_uuid_uniqueness [some itemRingR] (fun _ => 0) true = false := by
  refine ⟨?_, by decide, by decide, by decide⟩
  intro items ownedQty hnoring hcounts
  unfold validate_uuid_uniqueness
  rw [List.all_eq_true]
  intro u _
  cases hrep : uuidRep items u with
  | none => rfl
  | some i =>
    dsimp only
    rcases uuidRep_mem items u i hrep with ⟨hin, _⟩
    by_cases htool : i.slot = "tools"
    · rw [if_pos htool]
      simp [decide_eq_true_eq, hcounts u]
    · rw [if_neg htool, if_neg (by simp [hnoring i hin])]
      simp [decide_eq_true_eq, hcounts u]

/-- Witness for C10: the universal rule applied to the singleton gear item with
an all-zero ownership index, together with the concrete conjuncts. -/
theorem C10_witness :
    validate_uuid_uniqueness [some itemGearG] (fun _ => 0) true = true :=
  C10_owned_quantity_only_gates_rings.1 [some itemGearG] (fun _ => 0)
    (by decide) (fun u => le_trans (List.length_filter_le _ _) (by decide))

end Walkscape

namespace Walkscape

/-! ## util/stats_mixin.py -/

/-- Stat mapping (a Python dict of stat name to float with
`combined.get(stat_name, 0.0)` default): absent keys read as 0. -/
abbrev StatMap := String → ℚ

/-- The dict update `combined[stat_name] = combined.get(stat_name, 0.0) + stat_value`. -/
def addStat (m : StatMap) (n : String) (v : ℚ) : StatMap :=
  fun k => if k = n then m k + v else m k

/-- Innermost stat dict `{stat: value}` as an association list (iteration order
preserved). -/
abbrev Stats := List (String × ℚ)

/-- Per-skill dict `{location: {stat: value}}`. -/
abbrev SkillData := List (String × Stats)

/-- Full nested stat table `{skill: {location: {stat: value}}}`. -/
abbrev StatTable := List (String × SkillData)

instance : DecidableEq Stats := inferInstance

instance : DecidableEq SkillData := inferInstance

instance : DecidableEq StatTable := inferInstance

/-- Modelled from the spec: `LocationInfo` of the generated
`walkscape_constants` module is not in the repository snapshot; per §4.3 a
location carries case-insensitive region tags and `is_in_region` tests tag
membership.  Tags are stored lowercase. -/
structure Location where
  name : String
  regionTags : List String
deriving DecidableEq, Repr

/-- Region membership test used by `_location_matches` (lowercased lookup). -/
def Location.isInRegion (loc : Location) (tag : String) : Bool :=
  loc.regionTags.contains tag

/-- Python str.startswith over the character list, so that concrete instances
reduce in the kernel (core String.startsWith does not). -/
def strStartsWith (s p : String) : Bool :=
  s.toList.take p.toList.length == p.toList

/-- Python slicing `s[n:]` over the character list. -/
def strDrop (s : String) (n : ℕ) : String :=
  String.mk (s.toList.drop n)

/-- Embedding of `StatsMixin._location_matches` (stats_mixin.py lines 133-159):
`"global"` always matches, no location means only global, a `"!"` prefix
negates region membership. -/
def locationMatches (locationKey : String) (current : Option Location) : Bool :=
  if locationKey = "global" then true
  else
    match current with
    | none => false
    | some loc =>
      let isNegated := strStartsWith locationKey "!"
      let locationName := if isNegated then strDrop locationKey 1 else locationKey
      let isMatch := loc.isInRegion locationName.toLower
      if isNegated then !isMatch else isMatch

/-- Embedding of `StatsMixin._add_location_stats` (stats_mixin.py lines
161-178): accumulate every stat of every location key that matches. -/
def add_location_stats (skillData : SkillData) (location : Option Location)
    (combined : StatMap) : StatMap :=
  skillData.foldl
    (fun acc p =>
      if locationMatches p.1 location then p.2.foldl (fun a q => addStat a q.1 q.2) acc
      else acc)
    combined

/-- Modelled from the spec: `Skill.matches_skill` lives in the generated
`walkscape_constants` module absent from the snapshot; per §4.1 the TRAVEL
pseudo-skill matches `agility`, `traveling` and `global`, and a plain skill
matches itself and `global`. -/
def skillMatches (requested stored : String) : Bool :=
  if requested = "travel" then
    stored == "agility" || stored == "traveling" || stored == "global"
  else stored == requested || stored == "global"

/-- Shared inner loop of the gated-stat branches: add the location-filtered
stats of every skill key of `table` that matches the requested skill. -/
def addMatchingSkillStats (requested : String) (table : StatTable)
    (location : Option Location) (combined : StatMap) : StatMap :=
  table.foldl
    (fun acc p =>
      if skillMatches requested p.1 then add_location_stats p.2 location acc else acc)
    combined

/-- Gated stat tables of a StatSource (stats_mixin.py class doc, lines 30-37).
An absent gate type is the empty list. -/
structure GatedStats where
  skill_level : List (String × List (ℤ × StatTable)) := []
  activity_completion : List (String × List (ℤ × StatTable)) := []
  activity : List (String × StatTable) := []
  reputation : List (String × List (ℤ × StatTable)) := []
  set_pieces : List (String × List (ℕ × StatTable)) := []
  item_ownership : List (String × StatTable) := []
deriving DecidableEq, Repr

/-- Python truthiness of the `gated_stats` dict. -/
def GatedStats.nonEmpty (g : GatedStats) : Bool :=
  !(g.skill_level.isEmpty && g.activity_completion.isEmpty && g.activity.isEmpty &&
    g.reputation.isEmpty && g.set_pieces.isEmpty && g.item_ownership.isEmpty)

/-- Character state read by `_add_gated_stats`: skill levels, faction
reputation, the item objects of `character.items` (for ownership gates) and the
`my_config` completion flags looked up by generated variable name. -/
structure Character where
  skillLevels : String → ℤ
  reputation : String → ℤ
  ownedItems : List Item
  completions : String → Bool

/-- A stat-bearing source: identity name, plain stat table and gated tables. -/
structure StatSource where
  name : String
  stats : StatTable
  gated_stats : GatedStats := {}

/-- ASCII apostrophe, stripped from item names when building completion
variable names. -/
def apostropheChar : String := String.singleton (Char.ofNat 39)

/-- The `my_config` variable name built in the activity_completion branch
(stats_mixin.py lines 330-336). -/
def completionVarName (itemName activityName : String) (threshold : ℤ) : String :=
  ((itemName.toUpper.replace " " "_").replace apostropheChar "") ++ "_" ++
    (activityName.toUpper.replace " " "_") ++ "_" ++ toString threshold ++ "_COMPLETIONS"

/-- Stable insertion of a key-value pair into a key-sorted list: on equal keys
the new element goes after the existing ones, matching the stability of
Python's sorted(). -/
def insertByKey {k b : Type} [LT k] [DecidableRel (fun x y : k => x < y)]
    (x : k × b) : List (k × b) → List (k × b)
  | [] => [x]
  | y :: ys => if x.1 < y.1 then x :: y :: ys else y :: insertByKey x ys

/-- Python's `sorted(thresholds, key=...)` over an association list, by key:
structurally recursive so that concrete gate tables evaluate in the kernel. -/
def sortByKey {k b : Type} [LT k] [DecidableRel (fun x y : k => x < y)]
    (l : List (k × b)) : List (k × b) :=
  l.foldr insertByKey []

/-- The set_pieces branch of `_add_gated_stats` (stats_mixin.py lines 373-390):
thresholds are processed in increasing numeric key order and EVERY threshold at
or below the equipped count contributes (cumulative, not just the highest). -/
def addSetPiecesGate (requested : String) (location : Option Location)
    (setPieceCounts : List (String × ℕ))
    (gates : List (String × List (ℕ × StatTable))) (combined : StatMap) : StatMap :=
  gates.foldl
    (fun acc p =>
      let equippedCount := (setPieceCounts.lookup p.1).getD 0
      (sortByKey p.2).foldl
        (fun a q =>
          if q.1 ≤ equippedCount then addMatchingSkillStats requested q.2 location a else a)
        acc)
    combined

/-- Embedding of `StatsMixin._add_gated_stats` (stats_mixin.py lines 291-412),
branch by branch in source order: skill_level, activity_completion, activity,
reputation, set_pieces, item_ownership. -/
def add_gated_stats (src : StatSource) (requested : String) (location : Option Location)
    (combined : StatMap) (activity : Option String)
    (setPieceCounts : List (String × ℕ)) (character : Character) : StatMap :=
  let g := src.gated_stats
  let combined := g.skill_level.foldl
    (fun acc p =>
      let charLevel := character.skillLevels p.1
      p.2.foldl
        (fun a q =>
          if q.1 ≤ charLevel then addMatchingSkillStats requested q.2 location a else a)
        acc)
    combined
  let combined := g.activity_completion.foldl
    (fun acc p =>
      p.2.foldl
        (fun a q =>
          if character.completions (completionVarName src.name p.1 q.1) then
            addMatchingSkillStats requested q.2 location a
          else a)
        acc)
    combined
  let combined :=
    match activity with
    | none => combined
    | some act =>
      match g.activity.lookup act.toLower with
      | none => combined
      | some activityStats => addMatchingSkillStats requested activityStats location combined
  let combined := g.reputation.foldl
    (fun acc p =>
      let factionRep := character.reputation p.1
      (sortByKey p.2).foldl
        (fun a q =>
          if q.1 ≤ factionRep then addMatchingSkillStats requested q.2 location a else a)
        acc)
    combined
  let combined :=
    if setPieceCounts.isEmpty then combined
    else addSetPiecesGate requested location setPieceCounts g.set_pieces combined
  let ownedNames := character.ownedItems.map (fun i => i.name.toLower)
  g.item_ownership.foldl
    (fun acc p =>
      if ownedNames.contains p.1.toLower then addMatchingSkillStats requested p.2 location acc
      else acc)
    combined

/-- Percentage classification of the attribute catalog, transcribed from
util/attributes.py (`Attribute` enum): `some b` when the uppercased stat name
is a catalog member with `is_percentage = b`, `none` for unknown attributes. -/
def attributeIsPercentage : String → Option Bool
  | "bonus_xp_add" => some false
  | "bonus_xp_percent" => some true
  | "chest_finding" => some true
  | "double_action" => some true
  | "double_rewards" => some true
  | "find_bird_nests" => some true
  | "find_collectibles" => some true
  | "find_gems" => some true
  | "fine_material_finding" => some true
  | "inventory_space" => some false
  | "item_finding" => some true
  | "no_materials_consumed" => some true
  | "quality_outcome" => some false
  | "steps_add" => some false
  | "steps_percent" => some true
  | "work_efficiency" => some true
  | _ => none

/-- Embedding of `StatsMixin._convert_percentages` (stats_mixin.py lines
414-440): percentage-classified attributes are divided by 100, flat and
unknown attributes pass through. -/
def convert_percentages (m : StatMap) : StatMap :=
  fun n =>
    match attributeIsPercentage n with
    | some true => m n / 100
    | some false => m n
    | none => m n

/-- Embedding of `StatsMixin._calculate_stats_uncached` (stats_mixin.py lines
232-289).  `skill = none` is Python's falsy-skill branch (sum over every skill
and location, gated stats ignored); for `some s` the string is assumed to
resolve to a valid Skill member (an unknown skill raises in Python and returns
nothing).  This is the computation `get_stats_for_skill` memoizes under the key
(source identity, skill, location, activity, set-piece-counts). -/
def calculate_stats_uncached (src : StatSource) (skill : Option String)
    (location : Option Location) (activity : Option String)
    (setPieceCounts : List (String × ℕ)) (character : Character) : StatMap :=
  match skill with
  | none =>
    let combined := src.stats.foldl
      (fun acc p => p.2.foldl (fun a q => q.2.foldl (fun a2 r => addStat a2 r.1 r.2) a) acc)
      (fun _ => 0)
    convert_percentages combined
  | some s =>
    let combined : StatMap := fun _ => 0
    let combined := src.stats.foldl
      (fun acc p => if skillMatches s p.1 then add_location_stats p.2 location acc else acc)
      combined
    let combined :=
      if src.gated_stats.nonEmpty then
        add_gated_stats src s location combined activity setPieceCounts character
      else combined
    convert_percentages combined

end Walkscape

namespace Walkscape

/-- Folding with an inline guard is folding over the filtered list. -/
lemma foldl_guard_eq_foldl_filter {α β : Type} (p : β → Prop) [DecidablePred p]
    (f : α → β → α) :
    ∀ (l : List β) (init : α),
      l.foldl (fun a b => if p b then f a b else a) init =
        (l.filter (fun b => decide (p b))).foldl f init := by
  intro l
  induction l with
  | nil => intro init; rfl
  | cons x xs ih =>
    intro init
    by_cases h : p x <;> simp [List.filter_cons, h, ih]

/-- Concrete gated source for the C2 scenario: a `set_pieces` gate for the
keyword "proper gear" at thresholds 1..5, threshold t granting
10·t work_efficiency to mining everywhere. -/
def properGearPiece : StatSource :=
  { name := "Proper Gear Piece"
    stats := []
    gated_stats :=
      { set_pieces :=
          [("proper gear",
            [(1, [("mining", [("global", [("work_efficiency", 10)])])]),
             (2, [("mining", [("global", [("work_efficiency", 20)])])]),
             (3, [("mining", [("global", [("work_efficiency", 30)])])]),
             (4, [("mining", [("global", [("work_efficiency", 40)])])]),
             (5, [("mining", [("global", [("work_efficiency", 50)])])])])] } }

/-- Character with no levels, reputation, items or completion flags. -/
def blankCharacter : Character := ⟨fun _ => 0, fun _ => 0, [], fun _ => false⟩

/-- C2: gated stats are additive and cumulative across thresholds — a
`set_pieces` gate adds the stats of every threshold at or below the equipped
count, a `skill_level` gate those of every threshold at or below the
character's level, and a `reputation` gate those of every threshold at or
below the faction reputation (each guarded fold equals the fold over ALL
satisfied thresholds, not just the highest); and for the concrete gate at
thresholds {1,2,3,4,5} with exactly 2 unique "proper gear" pieces equipped the
query returns the sum of the threshold-1 and threshold-2 stats (10 + 20 raw,
3/10 after percentage conversion), not just the threshold-2 stats. -/
theorem C2_gated_stats_cumulative (requested : String) (location : Option Location)
    (setPieceCounts : List (String × ℕ)) (setName srcName gateSkill faction : String)
    (thresholds : List (ℕ × StatTable)) (slThresholds repThresholds : List (ℤ × StatTable))
    (combined : StatMap) (character : Character) :
    (addSetPiecesGate requested location setPieceCounts [(setName, thresholds)] combined =
      ((sortByKey thresholds).filter
          (fun q => decide (q.1 ≤ (setPieceCounts.lookup setName).getD 0))).foldl
        (fun a q => addMatchingSkillStats requested q.2 location a) combined) ∧
    (add_gated_stats ⟨srcName, [], { skill_level := [(gateSkill, slThresholds)] }⟩
        requested location combined none [] character =
      (slThresholds.filter
          (fun q => decide (q.1 ≤ character.skillLevels gateSkill))).foldl
        (fun a q => addMatchingSkillStats requested q.2 location a) combined) ∧
    (add_gated_stats ⟨srcName, [], { reputation := [(faction, repThresholds)] }⟩
        requested location combined none [] character =
      ((sortByKey repThresholds).filter
          (fun q => decide (q.1 ≤ character.reputation faction))).foldl
        (fun a q => addMatchingSkillStats requested q.2 location a) combined) ∧
    calculate_stats_uncached properGearPiece (some "mining") none none
        [("proper gear", 2)] blankCharacter "work_efficiency" = 3/10 := by
  refine ⟨?_, ?_, ?_, ?_⟩
  · unfold addSetPiecesGate
    rw [List.foldl_cons, List.foldl_nil]
    dsimp only
    exact foldl_guard_eq_foldl_filter _ _ _ _
  · unfold add_gated_stats
    dsimp only
    rw [List.foldl_cons, List.foldl_nil]
    exact foldl_guard_eq_foldl_filter _ _ _ _
  · unfold add_gated_stats
    dsimp only
    rw [List.foldl_cons, List.foldl_nil]
    exact foldl_guard_eq_foldl_filter _ _ _ _
  · simp [calculate_stats_uncached, add_gated_stats, addSetPiecesGate, sortByKey, insertByKey,
      addMatchingSkillStats, add_location_stats, addStat, convert_percentages,
      attributeIsPercentage, skillMatches, locationMatches, GatedStats.nonEmpty,
      properGearPiece, blankCharacter]
    norm_num

end Walkscape

namespace Walkscape

/-- Concrete gated source for C3: a `skill_level` gate granting mining
work_efficiency 10 once the character's mining level reaches 5. -/
def minersGloves : StatSource :=
  { name := "Miners Gloves"
    stats := []
    gated_stats :=
      { skill_level := [("mining", [(5, [("mining", [("global", [("work_efficiency", 10)])])])])] } }

/-- Character whose every skill level is 1. -/
def characterLevelOne : Character := ⟨fun _ => 1, fun _ => 0, [], fun _ => false⟩

/-- Character whose every skill level is 10. -/
def characterLevelTen : Character := ⟨fun _ => 10, fun _ => 0, [], fun _ => false⟩

/-- Counterexample to C3: with the five memoized inputs (source, skill,
location, activity, set-piece-counts) held fixed, two calls passing different
character arguments return different stat mappings — the skill-level gate of
`minersGloves` reads the character, which the five-input cache key omits. -/
theorem C3_counterexample_character_changes_result :
    calculate_stats_uncached minersGloves (some "mining") none none []
        characterLevelOne "work_efficiency" ≠
      calculate_stats_uncached minersGloves (some "mining") none none []
        characterLevelTen "work_efficiency" := by
  simp [calculate_stats_uncached, add_gated_stats, addSetPiecesGate, sortByKey, insertByKey,
    addMatchingSkillStats, add_location_stats, addStat, convert_percentages,
    attributeIsPercentage, skillMatches, locationMatches, GatedStats.nonEmpty,
    minersGloves, characterLevelOne, characterLevelTen]
  norm_num

/-- C3 amended: the uncached computation behind `get_stats_for_skill` is
character-independent (hence fully determined by the five memoized inputs)
exactly when the source has no gated stats; with gated stats present the
result additionally depends on the character, as the counterexample shows. -/
theorem C3_five_inputs_determine_result_without_gates
    (src : StatSource) (h : src.gated_stats = {}) (skill : Option String)
    (location : Option Location) (activity : Option String)
    (setPieceCounts : List (String × ℕ)) (c1 c2 : Character) :
    calculate_stats_uncached src skill location activity setPieceCounts c1 =
      calculate_stats_uncached src skill location activity setPieceCounts c2 := by
  cases skill with
  | none => rfl
  | some s =>
    unfold calculate_stats_uncached
    rw [h]
    simp [GatedStats.nonEmpty]

/-- Ungated concrete source for the C3 witness. -/
def plainBoots : StatSource :=
  { name := "Plain Boots"
    stats := [("mining", [("global", [("work_efficiency", 10)])])] }

/-- Witness for the amended C3 at a gate-free concrete source and two distinct
characters. -/
theorem C3_witness :
    calculate_stats_uncached plainBoots (some "mining") none none []
        characterLevelOne =
      calculate_stats_uncached plainBoots (some "mining") none none []
        characterLevelTen :=
  C3_five_inputs_determine_result_without_gates plainBoots rfl (some "mining")
    none none [] characterLevelOne characterLevelTen

end Walkscape

namespace Walkscape

/-! ## util/greedy_local_search.py -/

/-- Gearsets as slot-name-to-item mappings; `setSlot` is the Python
`test_gearset = current.copy(); test_gearset[slot] = item`. -/
def setSlot (g : String → Option Item) (slot : String) (item : Option Item) :
    String → Option Item :=
  fun s => if s = slot then item else g s

/-- Slot-category resolution of the local-search loops (greedy_local_search.py
lines 787-793): ring slots draw from category "ring", tool slots from "tools". -/
def slotCategory (slot : String) : String :=
  if strStartsWith slot "ring" then "ring"
  else if strStartsWith slot "tool" then "tools"
  else slot

/-- One entry of the caller-supplied SORTING_PRIORITY array: the metrics-dict
key it ranks by and whether higher is better (`is_reverse`). -/
structure SortingKey where
  metric_key : String
  is_reverse : Bool
deriving DecidableEq, Repr

/-- Modelled from the spec: `Sorting.is_better` lives in the generated
`walkscape_constants` module absent from the snapshot; per §4.5 it is the
multi-level lexicographic comparison over the priority list — compare the
first metric, tie-break on the next, each level independently "higher is
better" or "lower is better", equal on every level is not better. -/
def Sorting_is_better (testMetrics bestMetrics : StatMap) : List SortingKey → Bool
  | [] => false
  | s :: rest =>
    if s.is_reverse then
      if bestMetrics s.metric_key < testMetrics s.metric_key then true
      else if testMetrics s.metric_key < bestMetrics s.metric_key then false
      else Sorting_is_better testMetrics bestMetrics rest
    else
      if testMetrics s.metric_key < bestMetrics s.metric_key then true
      else if bestMetrics s.metric_key < testMetrics s.metric_key then false
      else Sorting_is_better testMetrics bestMetrics rest

/-- Running state of one local-search round of `optimize_for_activity`
(greedy_local_search.py lines 776-781): whether an improving swap was found,
the best gearset so far and its metrics (`best_gearset_metrics` starts at the
current gearset's metrics). -/
structure RoundState where
  improved : Bool
  bestGearset : String → Option Item
  bestMetrics : StatMap

/-- Inner candidate loop of the round (greedy_local_search.py lines 796-824):
for one slot, try every slot-compatible item other than the current one,
validate, and keep it when `Sorting.is_better` ranks its metrics above the best
seen so far in the round. -/
def roundInnerStep (metricsFn : (String → Option Item) → StatMap)
    (validFn : (String → Option Item) → Bool) (priority : List SortingKey)
    (current : String → Option Item) (slot : String)
    (st2 : RoundState) (newItem : Item) : RoundState :=
  if newItem.slot ≠ slotCategory slot then st2
  else if some newItem = current slot then st2
  else
    let test := setSlot current slot (some newItem)
    if validFn test = false then st2
    else
      let testMetrics := metricsFn test
      if Sorting_is_better testMetrics st2.bestMetrics priority then
        { improved := true, bestGearset := test, bestMetrics := testMetrics }
      else st2

/-- Slot scan of the round: fold the candidate loop over the item pool. -/
def roundStep (allItems : List Item) (metricsFn : (String → Option Item) → StatMap)
    (validFn : (String → Option Item) → Bool) (priority : List SortingKey)
    (current : String → Option Item) (st : RoundState) (slot : String) : RoundState :=
  allItems.foldl (roundInnerStep metricsFn validFn priority current slot) st

/-- One full round of the local-search phase of `optimize_for_activity`
(greedy_local_search.py lines 775-848): scan every slot of the current gearset
against every alternative item, tracking the single best candidate of the whole
round; the final state's gearset is the one the round commits (the current
gearset when no candidate improved). -/
def localSearchRound (slots : List String) (allItems : List Item)
    (metricsFn : (String → Option Item) → StatMap)
    (validFn : (String → Option Item) → Bool) (priority : List SortingKey)
    (current : String → Option Item) : RoundState :=
  slots.foldl (roundStep allItems metricsFn validFn priority current)
    { improved := false, bestGearset := current, bestMetrics := metricsFn current }

/-- Embedding of `create_multi_level_comparator` (greedy_local_search.py lines
166-225) over score tuples: three comparison levels, each independently
minimizing or maximizing; deeper levels are only consulted when both tuples are
long enough.  Python indexes `scores[0]` unconditionally (raising on an empty
tuple, which no score function produces); the embedding reads index 0 with
default 0. -/
def multiLevelCompare (primary_minimize secondary_minimize tertiary_minimize : Bool)
    (newScores oldScores : List ℚ) : Bool :=
  let n0 := newScores.getD 0 0
  let o0 := oldScores.getD 0 0
  let secondary : Bool :=
    if 1 < newScores.length ∧ 1 < oldScores.length then
      let n1 := newScores.getD 1 0
      let o1 := oldScores.getD 1 0
      let tertiary : Bool :=
        if 2 < newScores.length ∧ 2 < oldScores.length then
          let n2 := newScores.getD 2 0
          let o2 := oldScores.getD 2 0
          if tertiary_minimize then decide (n2 < o2) else decide (o2 < n2)
        else false
      if secondary_minimize then
        if n1 < o1 then true else if o1 < n1 then false else tertiary
      else
        if o1 < n1 then true else if n1 < o1 then false else tertiary
    else false
  if primary_minimize then
    if n0 < o0 then true else if o0 < n0 then false else secondary
  else
    if o0 < n0 then true else if n0 < o0 then false else secondary

/-- Inner item loop of the local-search phase of
`optimize_gearset_greedy_local_search` (greedy_local_search.py lines 119-147):
return the FIRST candidate of the slot that validates and improves on the
CURRENT score (the Python loop applies it and breaks immediately). -/
def firstImprovingInSlot (scoreFn : (String → Option Item) → List ℚ)
    (better : List ℚ → List ℚ → Bool) (validFn : (String → Option Item) → Bool)
    (current : String → Option Item) (currentScore : List ℚ) (slot : String) :
    List (Option Item) → Option ((String → Option Item) × List ℚ)
  | [] => none
  | item :: rest =>
    if item = current slot then
      firstImprovingInSlot scoreFn better validFn current currentScore slot rest
    else
      let test := setSlot current slot item
      if validFn test = false then
        firstImprovingInSlot scoreFn better validFn current currentScore slot rest
      else
        let testScore := scoreFn test
        if better testScore currentScore then some (test, testScore)
        else firstImprovingInSlot scoreFn better validFn current currentScore slot rest

/-- Slot loop of the same phase (greedy_local_search.py lines 115-151): the
round applies the first improving swap encountered in slot-then-item iteration
order and restarts; `none` means the round found no improvement (convergence). -/
def firstImprovingSwap (scoreFn : (String → Option Item) → List ℚ)
    (better : List ℚ → List ℚ → Bool) (validFn : (String → Option Item) → Bool)
    (current : String → Option Item) (currentScore : List ℚ) :
    List (String × List (Option Item)) → Option ((String → Option Item) × List ℚ)
  | [] => none
  | (slot, items) :: rest =>
    match firstImprovingInSlot scoreFn better validFn current currentScore slot items with
    | some r => some r
    | none => firstImprovingSwap scoreFn better validFn current currentScore rest

end Walkscape

namespace Walkscape

/-- One candidate step of the greedy slot fill of `optimize_for_activity`
(greedy_local_search.py lines 632-668): skip slot-incompatible items, skip
items carrying none of the still-needed keywords while any keyword is still
needed, validate, then score by the primary metric — multiplied by 3/2 when
the metric is maximized or by 1/2 when minimized for items carrying a needed
keyword — and keep the strictly better candidate.  Python's ±infinity
initialization of `best_metric` is the `none` state: the first surviving
candidate always becomes the incumbent. -/
def greedyStep (item_slot : String) (neededKeywords : List String)
    (hasKw : Item → String → Bool) (validFn : (String → Option Item) → Bool)
    (metricFn : (String → Option Item) → ℚ) (isReverse : Bool)
    (gearset : String → Option Item) (slot : String)
    (st : Option Item × Option ℚ) (item : Item) : Option Item × Option ℚ :=
  if item.slot ≠ item_slot then st
  else
    let itemKeywords := neededKeywords.filter (fun kw => hasKw item kw)
    if neededKeywords.isEmpty = false ∧ itemKeywords.isEmpty = true then st
    else
      let test := setSlot gearset slot (some item)
      if validFn test = false then st
      else
        let rawMetric := metricFn test
        let metricValue :=
          if itemKeywords.isEmpty = false then
            if isReverse then rawMetric * (3/2) else rawMetric * (1/2)
          else rawMetric
        match st.2 with
        | none => (some item, some metricValue)
        | some best =>
          if isReverse then
            if best < metricValue then (some item, some metricValue) else st
          else
            if metricValue < best then (some item, some metricValue) else st

/-- Greedy best-item selection for one slot in `optimize_for_activity`
(greedy_local_search.py lines 629-670): fold `greedyStep` over the candidate
pool, returning the chosen item (if any) and its boosted metric. -/
def greedySlotPick (item_slot : String) (neededKeywords : List String)
    (hasKw : Item → String → Bool) (validFn : (String → Option Item) → Bool)
    (metricFn : (String → Option Item) → ℚ) (isReverse : Bool)
    (gearset : String → Option Item) (slot : String) (items : List Item) :
    Option Item × Option ℚ :=
  items.foldl (greedyStep item_slot neededKeywords hasKw validFn metricFn isReverse gearset slot)
    (none, none)

end Walkscape

namespace Walkscape

/-- Lexicographic comparison is irreflexive: no metrics beat themselves. -/
lemma Sorting_is_better_irrefl : ∀ (priority : List SortingKey) (m : StatMap),
    Sorting_is_better m m priority = false := by
  intro priority m
  induction priority with
  | nil => rfl
  | cons s rest ih => by_cases hrev : s.is_reverse <;> simp [Sorting_is_better, hrev, ih]

/-- Compatibility of the lexicographic comparison with running-best updates: a
candidate no better than the incumbent is still no better than anything that
beats the incumbent. -/
lemma Sorting_is_better_compat : ∀ (priority : List SortingKey) (a b c : StatMap),
    Sorting_is_better a b priority = false → Sorting_is_better c b priority = true →
    Sorting_is_better a c priority = false := by
  intro priority
  induction priority with
  | nil => intro a b c _ hcb; simp [Sorting_is_better] at hcb
  | cons s rest ih =>
    intro a b c hab hcb
    by_cases hrev : s.is_reverse <;>
      simp only [Sorting_is_better, hrev, if_true, if_false, Bool.false_eq_true] at hab hcb ⊢ <;>
      split_ifs at hab hcb ⊢ <;>
      first
        | rfl
        | linarith
        | (exact ih a b c hab hcb)

end Walkscape

namespace Walkscape

/-- The swaps one round of `optimize_for_activity` evaluates at a given slot:
slot-compatible pool items other than the current occupant whose swapped-in
gearset validates. -/
def SlotCandidate (allItems : List Item) (validFn : (String → Option Item) → Bool)
    (current : String → Option Item) (slot : String) (g : String → Option Item) : Prop :=
  ∃ item ∈ allItems, item.slot = slotCategory slot ∧ some item ≠ current slot ∧
    validFn (setSlot current slot (some item)) = true ∧
    g = setSlot current slot (some item)

/-- The swaps one round evaluates across all its slots. -/
def RoundCandidate (allItems : List Item) (validFn : (String → Option Item) → Bool)
    (current : String → Option Item) (slots : List String)
    (g : String → Option Item) : Prop :=
  ∃ slot ∈ slots, SlotCandidate allItems validFn current slot g

/-- Each inner step either leaves the round state alone or commits a validated
slot candidate that strictly beats the incumbent metrics. -/
lemma roundInnerStep_cases (metricsFn : (String → Option Item) → StatMap)
    (validFn : (String → Option Item) → Bool) (priority : List SortingKey)
    (current : String → Option Item) (slot : String) (st : RoundState) (item : Item) :
    roundInnerStep metricsFn validFn priority current slot st item = st ∨
    (item.slot = slotCategory slot ∧ some item ≠ current slot ∧
     validFn (setSlot current slot (some item)) = true ∧
     Sorting_is_better (metricsFn (setSlot current slot (some item))) st.bestMetrics priority
       = true ∧
     roundInnerStep metricsFn validFn priority current slot st item =
       ⟨true, setSlot current slot (some item),
         metricsFn (setSlot current slot (some item))⟩) := by
  unfold roundInnerStep
  dsimp only
  split_ifs with h1 h2 h3 h4
  · exact Or.inl rfl
  · exact Or.inl rfl
  · exact Or.inl rfl
  · exact Or.inr ⟨not_not.mp h1, h2, by simpa using h3, h4, rfl⟩
  · exact Or.inl rfl

/-- The candidate scan never makes the incumbent easier to beat: metrics that
do not beat the incumbent do not beat any later state of the scan. -/
lemma roundStep_mono (metricsFn : (String → Option Item) → StatMap)
    (validFn : (String → Option Item) → Bool) (priority : List SortingKey)
    (current : String → Option Item) (slot : String) :
    ∀ (l : List Item) (st : RoundState) (m : StatMap),
      Sorting_is_better m st.bestMetrics priority = false →
      Sorting_is_better m
        ((l.foldl (roundInnerStep metricsFn validFn priority current slot) st).bestMetrics)
        priority = false := by
  intro l
  induction l with
  | nil => intro st m h; exact h
  | cons x xs ih =>
    intro st m h
    rw [List.foldl_cons]
    rcases roundInnerStep_cases metricsFn validFn priority current slot st x with
      hcase | ⟨_, _, _, hbetter, heq⟩
    · rw [hcase]; exact ih st m h
    · rw [heq]
      exact ih _ m (Sorting_is_better_compat priority m st.bestMetrics _ h hbetter)

/-- The candidate scan preserves metric consistency and provenance: the state's
metrics are those of its gearset, and the gearset either satisfies the incoming
provenance predicate or is a slot candidate. -/
lemma roundStep_prov (allItems : List Item) (metricsFn : (String → Option Item) → StatMap)
    (validFn : (String → Option Item) → Bool) (priority : List SortingKey)
    (current : String → Option Item) (slot : String)
    (Q : (String → Option Item) → Prop) :
    ∀ (l : List Item) (st : RoundState), (∀ x ∈ l, x ∈ allItems) →
      st.bestMetrics = metricsFn st.bestGearset →
      (Q st.bestGearset ∨ SlotCandidate allItems validFn current slot st.bestGearset) →
      ((l.foldl (roundInnerStep metricsFn validFn priority current slot) st).bestMetrics =
        metricsFn
          (l.foldl (roundInnerStep metricsFn validFn priority current slot) st).bestGearset ∧
       (Q (l.foldl (roundInnerStep metricsFn validFn priority current slot) st).bestGearset ∨
        SlotCandidate allItems validFn current slot
          (l.foldl (roundInnerStep metricsFn validFn priority current slot) st).bestGearset)) := by
  intro l
  induction l with
  | nil => intro st _ hm hq; exact ⟨hm, hq⟩
  | cons x xs ih =>
    intro st hsub hm hq
    rw [List.foldl_cons]
    rcases roundInnerStep_cases metricsFn validFn priority current slot st x with
      hcase | ⟨hslot, hne, hvalid, _, heq⟩
    · rw [hcase]; exact ih st (fun y hy => hsub y (List.mem_cons_of_mem x hy)) hm hq
    · rw [heq]
      exact ih _ (fun y hy => hsub y (List.mem_cons_of_mem x hy)) rfl
        (Or.inr ⟨x, hsub x (List.mem_cons_self x xs), hslot, hne, hvalid, rfl⟩)

/-- A passing candidate reduces the inner step to a bare comparison with the
incumbent. -/
lemma roundInnerStep_passing (metricsFn : (String → Option Item) → StatMap)
    (validFn : (String → Option Item) → Bool) (priority : List SortingKey)
    (current : String → Option Item) (slot : String) (st : RoundState) (item : Item)
    (h1 : item.slot = slotCategory slot) (h2 : some item ≠ current slot)
    (h3 : validFn (setSlot current slot (some item)) = true) :
    roundInnerStep metricsFn validFn priority current slot st item =
      if Sorting_is_better (metricsFn (setSlot current slot (some item))) st.bestMetrics
          priority then
        ⟨true, setSlot current slot (some item), metricsFn (setSlot current slot (some item))⟩
      else st := by
  unfold roundInnerStep
  rw [if_neg (by simp [h1]), if_neg h2, if_neg (by simp [h3])]

/-- After the scan of a slot, no candidate of that slot beats the state's
metrics. -/
lemma roundStep_complete (metricsFn : (String → Option Item) → StatMap)
    (validFn : (String → Option Item) → Bool) (priority : List SortingKey)
    (current : String → Option Item) (slot : String) :
    ∀ (l : List Item) (st : RoundState), ∀ item ∈ l,
      item.slot = slotCategory slot → some item ≠ current slot →
      validFn (setSlot current slot (some item)) = true →
      Sorting_is_better (metricsFn (setSlot current slot (some item)))
        ((l.foldl (roundInnerStep metricsFn validFn priority current slot) st).bestMetrics)
        priority = false := by
  intro l
  induction l with
  | nil => intro st item hmem; exact absurd hmem (List.not_mem_nil item)
  | cons x xs ih =>
    intro st item hmem h1 h2 h3
    rw [List.foldl_cons]
    rcases List.mem_cons.mp hmem with hx | hxs
    · subst hx
      rw [roundInnerStep_passing metricsFn validFn priority current slot st item h1 h2 h3]
      cases hb :
        Sorting_is_better (metricsFn (setSlot current slot (some item))) st.bestMetrics
          priority with
      | true =>
        exact roundStep_mono metricsFn validFn priority current slot xs _ _
          (Sorting_is_better_irrefl priority (metricsFn (setSlot current slot (some item))))
      | false =>
        exact roundStep_mono metricsFn validFn priority current slot xs _ _ hb
    · exact ih _ item hxs h1 h2 h3

end Walkscape

namespace Walkscape

/-- Round-level monotonicity: metrics that do not beat the running best do not
beat the best of any later slot scan. -/
lemma localSearchRound_mono (allItems : List Item)
    (metricsFn : (String → Option Item) → StatMap)
    (validFn : (String → Option Item) → Bool) (priority : List SortingKey)
    (current : String → Option Item) :
    ∀ (ls : List String) (st : RoundState) (m : StatMap),
      Sorting_is_better m st.bestMetrics priority = false →
      Sorting_is_better m
        ((ls.foldl (roundStep allItems metricsFn validFn priority current) st).bestMetrics)
        priority = false := by
  intro ls
  induction ls with
  | nil => intro st m h; exact h
  | cons s ss ih =>
    intro st m h
    rw [List.foldl_cons]
    exact ih _ m (roundStep_mono metricsFn validFn priority current s allItems st m h)

/-- Round-level provenance: the running best's metrics are those of its
gearset, and the gearset is the current one or a candidate of one of the
round's slots. -/
lemma localSearchRound_prov (allItems : List Item)
    (metricsFn : (String → Option Item) → StatMap)
    (validFn : (String → Option Item) → Bool) (priority : List SortingKey)
    (current : String → Option Item) (slots : List String) :
    ∀ (ls : List String) (st : RoundState), (∀ s ∈ ls, s ∈ slots) →
      st.bestMetrics = metricsFn st.bestGearset →
      (st.bestGearset = current ∨
        RoundCandidate allItems validFn current slots st.bestGearset) →
      (((ls.foldl (roundStep allItems metricsFn validFn priority current) st).bestMetrics =
          metricsFn
            ((ls.foldl (roundStep allItems metricsFn validFn priority current)
              st).bestGearset)) ∧
       (((ls.foldl (roundStep allItems metricsFn validFn priority current)
            st).bestGearset = current) ∨
        RoundCandidate allItems validFn current slots
          ((ls.foldl (roundStep allItems metricsFn validFn priority current)
            st).bestGearset))) := by
  intro ls
  induction ls with
  | nil => intro st _ hm hq; exact ⟨hm, hq⟩
  | cons s ss ih =>
    intro st hsub hm hq
    rw [List.foldl_cons]
    have hstep := roundStep_prov allItems metricsFn validFn priority current s
      (fun g => g = current ∨ RoundCandidate allItems validFn current slots g)
      allItems st (fun _ hx => hx) hm (Or.inl hq)
    refine ih _ (fun y hy => hsub y (List.mem_cons_of_mem s hy)) hstep.1 ?_
    rcases hstep.2 with hq2 | hcand
    · exact hq2
    · exact Or.inr ⟨s, hsub s (List.mem_cons_self s ss), hcand⟩

end Walkscape

namespace Walkscape

/-- Amended C4 (best-of-round selection in `optimize_for_activity`): after a
full local-search round, the committed state's metrics belong to its gearset,
that gearset is the current one or one of the round's evaluated swaps, and NO
evaluated swap of the whole round — nor the current gearset — beats it under
the multi-level lexicographic comparison.  The generic
`optimize_gearset_greedy_local_search` instead applies the first improving
swap, refuting the claim as stated (see the counterexample). -/
theorem C4_round_applies_unbeaten_best_swap (slots : List String) (allItems : List Item)
    (metricsFn : (String → Option Item) → StatMap)
    (validFn : (String → Option Item) → Bool) (priority : List SortingKey)
    (current : String → Option Item) :
    ((localSearchRound slots allItems metricsFn validFn priority current).bestMetrics =
      metricsFn
        ((localSearchRound slots allItems metricsFn validFn priority current).bestGearset)) ∧
    (((localSearchRound slots allItems metricsFn validFn priority current).bestGearset =
        current) ∨
      RoundCandidate allItems validFn current slots
        ((localSearchRound slots allItems metricsFn validFn priority current).bestGearset)) ∧
    (Sorting_is_better (metricsFn current)
      ((localSearchRound slots allItems metricsFn validFn priority current).bestMetrics)
      priority = false) ∧
    (∀ slot ∈ slots, ∀ item ∈ allItems,
      item.slot = slotCategory slot → some item ≠ current slot →
      validFn (setSlot current slot (some item)) = true →
      Sorting_is_better (metricsFn (setSlot current slot (some item)))
        ((localSearchRound slots allItems metricsFn validFn priority current).bestMetrics)
        priority = false) := by
  have hprov := localSearchRound_prov allItems metricsFn validFn priority current slots
    slots ⟨false, current, metricsFn current⟩ (fun _ hx => hx) rfl (Or.inl rfl)
  refine ⟨hprov.1, hprov.2, ?_, ?_⟩
  · exact localSearchRound_mono allItems metricsFn validFn priority current slots _ _
      (Sorting_is_better_irrefl priority (metricsFn current))
  · intro slot hslot item hitem h1 h2 h3
    rcases List.append_of_mem hslot with ⟨l1, l2, rfl⟩
    unfold localSearchRound
    rw [List.foldl_append, List.foldl_cons]
    exact localSearchRound_mono allItems metricsFn validFn priority current l2 _ _
      (roundStep_complete metricsFn validFn priority current slot allItems _ item hitem
        h1 h2 h3)

/-- Concrete current head item for the C4 instance. -/
def itemHeadA : Item := ⟨"uuid-head-a", "Head A", "head", []⟩

/-- Concrete first alternative head item (score 9). -/
def itemHeadB : Item := ⟨"uuid-head-b", "Head B", "head", []⟩

/-- Concrete second alternative head item (score 5, the round's true best under
minimization). -/
def itemHeadC : Item := ⟨"uuid-head-c", "Head C", "head", []⟩

/-- Current gearset of the C4 instance: only the head slot is occupied. -/
def baseGearset : String → Option Item := fun s =>
  if s = "head" then some itemHeadA else none

/-- Score tuples of the C4 instance: 10 with Head A, 9 with Head B, 5 with
Head C (primary metric, lower is better). -/
def headScore : (String → Option Item) → List ℚ := fun g =>
  if g "head" = some itemHeadB then [9] else if g "head" = some itemHeadC then [5] else [10]

/-- Counterexample to C4 as stated: on this instance the local-search round of
`optimize_gearset_greedy_local_search` applies the FIRST improving swap (Head
B, score 9) although the same round offers the swap to Head C whose score 5 is
strictly better under the multi-level comparator — so the applied swap is not
the single best improving swap of the round. -/
theorem C4_counterexample_first_improving_swap_applied :
    ((firstImprovingSwap headScore (multiLevelCompare true false true) (fun _ => true)
        baseGearset (headScore baseGearset)
        [("head", [some itemHeadB, some itemHeadC])]).map (fun r => r.2) = some [9]) ∧
    headScore (setSlot baseGearset "head" (some itemHeadC)) = [5] ∧
    multiLevelCompare true false true [5] [9] = true := by
  refine ⟨?_, ?_, ?_⟩
  · simp [firstImprovingSwap, firstImprovingInSlot, setSlot, baseGearset, headScore,
      multiLevelCompare, itemHeadA, itemHeadB, itemHeadC]
    norm_num
  · simp [setSlot, baseGearset, headScore, itemHeadB, itemHeadC]
  · simp [multiLevelCompare]
    norm_num

/-- Metrics dictionaries of the C4 witness instance, exposing the scores under
the key "score". -/
def headMetrics : (String → Option Item) → StatMap := fun g => fun k =>
  if k = "score" then
    (if g "head" = some itemHeadB then 9 else if g "head" = some itemHeadC then 5 else 10)
  else 0

/-- Witness for the amended C4 on the concrete instance: the swap to Head B,
evaluated during the round, does not beat the round's committed result. -/
theorem C4_witness :
    Sorting_is_better (headMetrics (setSlot baseGearset "head" (some itemHeadB)))
      ((localSearchRound ["head"] [itemHeadB, itemHeadC] headMetrics (fun _ => true)
          [⟨"score", false⟩] baseGearset).bestMetrics)
      [⟨"score", false⟩] = false :=
  (C4_round_applies_unbeaten_best_swap ["head"] [itemHeadB, itemHeadC] headMetrics
      (fun _ => true) [⟨"score", false⟩] baseGearset).2.2.2
    "head" (by simp) itemHeadB (by simp) (by decide) (by decide) rfl

end Walkscape

namespace Walkscape

/-- An item carrying none of the still-needed keywords is skipped outright by
the greedy candidate loop whenever at least one keyword is still needed. -/
lemma greedyStep_skips_keywordless (item_slot : String) (neededKeywords : List String)
    (hasKw : Item → String → Bool) (validFn : (String → Option Item) → Bool)
    (metricFn : (String → Option Item) → ℚ) (isReverse : Bool)
    (gearset : String → Option Item) (slot : String)
    (st : Option Item × Option ℚ) (item : Item)
    (hn : neededKeywords ≠ []) (hkw : ∀ kw ∈ neededKeywords, hasKw item kw = false) :
    greedyStep item_slot neededKeywords hasKw validFn metricFn isReverse gearset slot
      st item = st := by
  unfold greedyStep
  by_cases h1 : item.slot ≠ item_slot
  · rw [if_pos h1]
  · rw [if_neg h1]
    dsimp only
    rw [if_pos ?_]
    constructor
    · simpa [List.isEmpty_iff] using hn
    · simp only [List.isEmpty_iff, List.filter_eq_nil_iff]
      intro kw hkwmem
      simp [hkw kw hkwmem]

/-- Amended C5: during greedy initialization with unsatisfied keyword counts,
an item carrying none of the still-needed keywords is excluded from candidacy
(hard filter): deleting it from the candidate pool does not change the slot's
greedy pick.  (Items that do carry a needed keyword receive the 3/2 or 1/2
scoring boost inside `greedyStep`.) -/
theorem C5_keywordless_items_are_hard_filtered (item_slot : String)
    (neededKeywords : List String) (hasKw : Item → String → Bool)
    (validFn : (String → Option Item) → Bool) (metricFn : (String → Option Item) → ℚ)
    (isReverse : Bool) (gearset : String → Option Item) (slot : String)
    (l1 l2 : List Item) (i : Item)
    (hn : neededKeywords ≠ []) (hkw : ∀ kw ∈ neededKeywords, hasKw i kw = false) :
    greedySlotPick item_slot neededKeywords hasKw validFn metricFn isReverse gearset slot
        (l1 ++ i :: l2) =
      greedySlotPick item_slot neededKeywords hasKw validFn metricFn isReverse gearset slot
        (l1 ++ l2) := by
  unfold greedySlotPick
  rw [List.foldl_append, List.foldl_append, List.foldl_cons,
    greedyStep_skips_keywordless item_slot neededKeywords hasKw validFn metricFn isReverse
      gearset slot _ i hn hkw]

/-- Concrete keyword-less feet item for the C5 instance. -/
def plainSneakers : Item := ⟨"uuid-sneakers", "Sneakers", "feet", []⟩

/-- Concrete keyword-carrying feet item for the C5 witness. -/
def skiBoots : Item := ⟨"uuid-skis", "Ski Boots", "feet", ["skis"]⟩

/-- Counterexample to C5 as stated: with the keyword "skis" still needed, the
greedy pass never evaluates the valid, finitely scored `plainSneakers` — the
slot pick comes back empty although the item is the only candidate; with no
keywords needed the very same pool yields the item.  Keyword need is therefore
a hard filter, not only a scoring boost. -/
theorem C5_counterexample_keywordless_item_excluded :
    greedySlotPick "feet" ["skis"] (fun i kw => i.keywords.contains kw) (fun _ => true)
        (fun _ => 7) false (fun _ => none) "feet" [plainSneakers] = (none, none) ∧
    greedySlotPick "feet" [] (fun i kw => i.keywords.contains kw) (fun _ => true)
        (fun _ => 7) false (fun _ => none) "feet" [plainSneakers] =
      (some plainSneakers, some 7) := by
  constructor
  · simp [greedySlotPick, greedyStep, plainSneakers, setSlot]
  · simp [greedySlotPick, greedyStep, plainSneakers, setSlot]

/-- Witness for the amended C5: removing the keyword-less `plainSneakers` from
the pool leaves the greedy pick unchanged while "skis" is still needed. -/
theorem C5_witness :
    greedySlotPick "feet" ["skis"] (fun i kw => i.keywords.contains kw) (fun _ => true)
        (fun _ => 7) false (fun _ => none) "feet" ([skiBoots] ++ plainSneakers :: []) =
      greedySlotPick "feet" ["skis"] (fun i kw => i.keywords.contains kw) (fun _ => true)
        (fun _ => 7) false (fun _ => none) "feet" ([skiBoots] ++ []) :=
  C5_keywordless_items_are_hard_filtered "feet" ["skis"]
    (fun i kw => i.keywords.contains kw) (fun _ => true) (fun _ => 7) false
    (fun _ => none) "feet" [skiBoots] [] plainSneakers (by decide) (by decide)

end Walkscape

namespace Walkscape

/-! ## util/gearset_utils.py: gearset export codec

The transport layers of the codec — base64, gzip and JSON text — are an
external wire format (spec §6) whose encode/decode pairs are inverse
bijections on well-formed data; they are modelled as the identity on the
parsed JSON structure.  What is embedded is everything the repository itself
computes: the items array `encode_gearset` builds (slot order, indices,
quality extraction from display names, `"null"` placeholders) and the slot
assignment `Gearset._load_from_export` reconstructs from a decoded array. -/

/-- The 18 named slots of the `Gearset` class (gearset_utils.py lines 47-64). -/
inductive Slot : Type
  | head | cape | back | chest | primary | secondary | hands | legs | neck | feet
  | ring1 | ring2 | tool0 | tool1 | tool2 | tool3 | tool4 | tool5
deriving DecidableEq, Repr

/-- One element of the export's `items` array: the slot `type` string, the
repetition `index`, and the item payload — `none` for the literal string
`"null"`, otherwise the `(id, quality)` pair of the nested JSON (the constant
`tag: null` and empty `errors` array carry no information and are omitted). -/
structure ExportEntry where
  type : String
  index : ℕ
  item : Option (String × String)
deriving DecidableEq, Repr

/-- Modelled from the spec: `QUALITY_NAME_TO_EXPORT` lives in the generated
`walkscape_constants` module absent from the snapshot; per §6 the display
tiers map to export strings Normal→common, Good→uncommon, Great→rare,
Excellent→epic, Perfect→legendary, Eternal→ethereal. -/
def QUALITY_NAME_TO_EXPORT : List (String × String) :=
  [("Normal", "common"), ("Good", "uncommon"), ("Great", "rare"),
   ("Excellent", "epic"), ("Perfect", "legendary"), ("Eternal", "ethereal")]

/-- Substring containment over character lists (Python's `in` on str),
structurally recursive so concrete names evaluate in the kernel. -/
def containsSublist (sub : List Char) : List Char → Bool
  | [] => sub.isEmpty
  | c :: cs => sub.isPrefixOf (c :: cs) || containsSublist sub cs

/-- Python `f'({quality_name})' in item.name`. -/
def strContainsSub (s sub : String) : Bool :=
  containsSublist sub.toList s.toList

/-- Quality extraction of `encode_gearset` (gearset_utils.py lines 586-590):
the first display tier whose parenthesised name occurs in the item name, in
`QUALITY_NAME_TO_EXPORT` order, defaulting to `"common"`. -/
def extractQuality (name : String) : String :=
  match QUALITY_NAME_TO_EXPORT.find? (fun p => strContainsSub name ("(" ++ p.1 ++ ")")) with
  | some p => p.2
  | none => "common"

/-- One entry of the encoded items array (gearset_utils.py lines 592-608):
occupied slots carry the item's uuid and extracted quality, empty slots the
`"null"` payload. -/
def entryFor (type_ : String) (idx : ℕ) (it : Option Item) : ExportEntry :=
  match it with
  | none => ⟨type_, idx, none⟩
  | some item => ⟨type_, idx, some (item.uuid, extractQuality item.name)⟩

/-- Embedding of `encode_gearset` (gearset_utils.py lines 552-680): ten gear
entries in `slot_type_map` order, then the two ring entries, then six tool
entries — 18 in all, every slot present, unoccupied slots as `"null"`. -/
def encode_gearset (g : Slot → Option Item) : List ExportEntry :=
  [entryFor "head" 0 (g .head), entryFor "cape" 0 (g .cape), entryFor "back" 0 (g .back),
   entryFor "chest" 0 (g .chest), entryFor "primary" 0 (g .primary),
   entryFor "secondary" 0 (g .secondary), entryFor "hands" 0 (g .hands),
   entryFor "legs" 0 (g .legs), entryFor "neck" 0 (g .neck), entryFor "feet" 0 (g .feet),
   entryFor "ring" 0 (g .ring1), entryFor "ring" 1 (g .ring2),
   entryFor "tool" 0 (g .tool0), entryFor "tool" 1 (g .tool1), entryFor "tool" 2 (g .tool2),
   entryFor "tool" 3 (g .tool3), entryFor "tool" 4 (g .tool4), entryFor "tool" 5 (g .tool5)]

/-- Slot targeted by a decoded entry (`Gearset._load_from_export`,
gearset_utils.py lines 102-113): ring indices 0/1 go to ring1/ring2, tool
indices 0..5 to their tool slot, known gear type names to their field;
anything else sets an attribute outside the 18 slots (`none` here). -/
def slotOfTypeIndex (t : String) (idx : ℕ) : Option Slot :=
  if t = "ring" then
    if idx = 0 then some .ring1 else if idx = 1 then some .ring2 else none
  else if t = "tool" then
    if idx = 0 then some .tool0 else if idx = 1 then some .tool1
    else if idx = 2 then some .tool2 else if idx = 3 then some .tool3
    else if idx = 4 then some .tool4 else if idx = 5 then some .tool5 else none
  else if t = "head" then some .head
  else if t = "cape" then some .cape
  else if t = "back" then some .back
  else if t = "chest" then some .chest
  else if t = "primary" then some .primary
  else if t = "secondary" then some .secondary
  else if t = "hands" then some .hands
  else if t = "legs" then some .legs
  else if t = "neck" then some .neck
  else if t = "feet" then some .feet
  else none

/-- Processing of one decoded entry (gearset_utils.py lines 90-113): `"null"`
entries are skipped, otherwise the `(uuid, quality)` pair is resolved through
`Item.by_uuid` and the result — even a failed (`none`) resolution — is
assigned to the targeted slot. -/
def applyEntry (byUuid : String → String → Option Item) (g : Slot → Option Item)
    (e : ExportEntry) : Slot → Option Item :=
  match e.item with
  | none => g
  | some (uuid, quality) =>
    match slotOfTypeIndex e.type e.index with
    | none => g
    | some s => fun s2 => if s2 = s then byUuid uuid quality else g s2

/-- Embedding of `Gearset._load_from_export` applied to a decoded items array:
fold every entry over the empty gearset. -/
def load_from_export (byUuid : String → String → Option Item)
    (entries : List ExportEntry) : Slot → Option Item :=
  entries.foldl (applyEntry byUuid) (fun _ => none)

/-- Pointwise effect of one decoded entry built by the encoder. -/
lemma applyEntry_entryFor_apply (byUuid : String → String → Option Item)
    (g : Slot → Option Item) (t : String) (idx : ℕ) (it : Option Item) (s : Slot) :
    applyEntry byUuid g (entryFor t idx it) s =
      if slotOfTypeIndex t idx = some s then
        (match it with
         | none => g s
         | some i => byUuid i.uuid (extractQuality i.name))
      else g s := by
  cases it with
  | none =>
    simp only [entryFor, applyEntry]
    split <;> rfl
  | some i =>
    simp only [entryFor, applyEntry]
    cases hslot : slotOfTypeIndex t idx with
    | none =>
      rw [if_neg (by simp [hslot])]
    | some s2 =>
      dsimp only
      by_cases hs : s = s2
      · subst hs
        simp [hslot]
      · simp [hslot, hs, Ne.symm hs]

end Walkscape

namespace Walkscape

/-- Decoding an encoded gearset restores every slot, provided each equipped
item resolves back to itself through the catalog at its extracted quality
("built from valid items"). -/
lemma load_encode_apply (byUuid : String → String → Option Item)
    (g : Slot → Option Item)
    (hres : ∀ s i, g s = some i → byUuid i.uuid (extractQuality i.name) = some i) :
    ∀ s, load_from_export byUuid (encode_gearset g) s = g s := by
  intro s
  cases s
  all_goals
    simp [load_from_export, encode_gearset, applyEntry_entryFor_apply, slotOfTypeIndex]
    split
    · rename_i h
      exact h.symm
    · rename_i i h
      rw [h]
      exact hres _ i h

/-- Every slot value produced by decoding is either untouched or a catalog
resolution. -/
lemma load_values_from_catalog (byUuid : String → String → Option Item) :
    ∀ (es : List ExportEntry) (g : Slot → Option Item) (s : Slot),
      (es.foldl (applyEntry byUuid) g) s = g s ∨
      ∃ u q, (es.foldl (applyEntry byUuid) g) s = byUuid u q := by
  intro es
  induction es with
  | nil => intro g s; exact Or.inl rfl
  | cons e tail ih =>
    intro g s
    rw [List.foldl_cons]
    rcases ih (applyEntry byUuid g e) s with h | h
    · rw [h]
      rcases he : e.item with _ | ⟨u, q⟩
      · exact Or.inl (by simp [applyEntry, he])
      · rcases hsl : slotOfTypeIndex e.type e.index with _ | s2
        · exact Or.inl (by simp [applyEntry, he, hsl])
        · by_cases hs : s = s2
          · exact Or.inr ⟨u, q, by simp [applyEntry, he, hsl, hs]⟩
          · exact Or.inl (by simp [applyEntry, he, hsl, hs])
    · exact Or.inr h

/-- The slot `type` string of an encoded entry. -/
lemma entryFor_type (t : String) (i : ℕ) (it : Option Item) : (entryFor t i it).type = t := by
  cases it <;> rfl

/-- The slot `index` of an encoded entry. -/
lemma entryFor_index (t : String) (i : ℕ) (it : Option Item) : (entryFor t i it).index = i := by
  cases it <;> rfl

end Walkscape

namespace Walkscape

/-- Amended C8 (18 slots, not 20): for any gearset built from valid items —
each equipped item resolving to itself through `Item.by_uuid` at the quality
extracted from its name — decoding the encoded items array recovers the exact
slot-to-item assignment; the array has 18 entries (10 gear + 2 rings + 6
tools), one per named slot in fixed order, with unoccupied slots emitted as
the `"null"` payload; and re-encoding a decoded array decodes to the same
assignment as the original (semantic equality), given a catalog whose items
resolve consistently. -/
theorem C8_codec_roundtrip_over_18_slots (byUuid : String → String → Option Item)
    (g : Slot → Option Item) (L : List ExportEntry)
    (hres : ∀ s i, g s = some i → byUuid i.uuid (extractQuality i.name) = some i)
    (hcat : ∀ u q i, byUuid u q = some i → byUuid i.uuid (extractQuality i.name) = some i) :
    (∀ s, load_from_export byUuid (encode_gearset g) s = g s) ∧
    (encode_gearset g).length = 18 ∧
    ((encode_gearset g).map (fun e => (e.type, e.index)) =
      [("head", 0), ("cape", 0), ("back", 0), ("chest", 0), ("primary", 0),
       ("secondary", 0), ("hands", 0), ("legs", 0), ("neck", 0), ("feet", 0),
       ("ring", 0), ("ring", 1),
       ("tool", 0), ("tool", 1), ("tool", 2), ("tool", 3), ("tool", 4), ("tool", 5)]) ∧
    (encode_gearset (fun _ => none) =
      [⟨"head", 0, none⟩, ⟨"cape", 0, none⟩, ⟨"back", 0, none⟩, ⟨"chest", 0, none⟩,
       ⟨"primary", 0, none⟩, ⟨"secondary", 0, none⟩, ⟨"hands", 0, none⟩, ⟨"legs", 0, none⟩,
       ⟨"neck", 0, none⟩, ⟨"feet", 0, none⟩, ⟨"ring", 0, none⟩, ⟨"ring", 1, none⟩,
       ⟨"tool", 0, none⟩, ⟨"tool", 1, none⟩, ⟨"tool", 2, none⟩, ⟨"tool", 3, none⟩,
       ⟨"tool", 4, none⟩, ⟨"tool", 5, none⟩]) ∧
    (∀ s, load_from_export byUuid (encode_gearset (load_from_export byUuid L)) s =
      load_from_export byUuid L s) := by
  refine ⟨load_encode_apply byUuid g hres, ?_, ?_, rfl, ?_⟩
  · cases hh : g .head <;> rfl
  · simp [encode_gearset, entryFor_type, entryFor_index]
  · apply load_encode_apply
    intro s i h
    rcases load_values_from_catalog byUuid L (fun _ => none) s with h0 | ⟨u, q, hv⟩
    · unfold load_from_export at h
      rw [h] at h0
      cases h0
    · exact hcat u q i (hv ▸ h)

/-- Counterexample to C8 as stated: the encoder emits 18 slot entries, not the
20 the claim asserts. -/
theorem C8_counterexample_eighteen_entries_not_twenty :
    (encode_gearset (fun _ => none)).length = 18 ∧
    (encode_gearset (fun _ => none)).length ≠ 20 := by
  constructor
  · rfl
  · decide

/-- Concrete catalog item for the C8 witness: a quality-less helm ("common"). -/
def ironHelm : Item := ⟨"uuid-helm", "Iron Helm", "head", []⟩

/-- Concrete catalog resolving only `("uuid-helm", "common")`. -/
def helmCatalog : String → String → Option Item := fun u q =>
  if u = "uuid-helm" ∧ q = "common" then some ironHelm else none

/-- Concrete gearset equipping the helm in the head slot. -/
def helmGearset : Slot → Option Item := fun s =>
  match s with
  | .head => some ironHelm
  | _ => none

/-- Witness for the amended C8 at the concrete helm instance. -/
theorem C8_witness :
    load_from_export helmCatalog (encode_gearset helmGearset) Slot.head =
      helmGearset Slot.head :=
  (C8_codec_roundtrip_over_18_slots helmCatalog helmGearset []
    (by
      intro s i h
      cases s <;> simp [helmGearset] at h
      subst h
      decide)
    (by
      intro u q i h
      unfold helmCatalog at h
      split_ifs at h with hc
      cases h
      decide)).1 Slot.head

end Walkscape
